import Mathlib

/-!
Verification of the contract-extraction bot (bot_contracts_PRD_instance_1).

This file gives a shallow embedding of the core of the repository:

* the per-contract state machine process_contract (core/contracts.py),
* the gateway step functions search_contract, open_contract,
  access_contract_documents (core/contracts.py, core/documents.py),
  download_contract_documents and navigate_to_homepage,
* the resume tracker get_last_contract_id (core/contracts.py),
* the batch planner get_contracts_to_process (core/contracts.py),
* the batch loop and summary of main.py, and save_report gating.

External effects (Playwright page interactions, the filesystem, the clock)
are modelled by explicit environment records that list the observable result
of each interaction; machine time is modelled by natural-number second
counts.  Python exceptions are modelled by the type PyExn; a Python function
that may raise is embedded with result type Except PyExn.
-/

namespace RPABot

/-- A Python exception value (everything caught by an except-Exception clause). -/
inductive PyExn where
  | exn : String → PyExn
deriving Repr, DecidableEq

/-- One report row: the dictionary returned by process_contract
(contracts.py lines 222-227) and also the row shape that main.py appends to
report_data.  Field names follow the dictionary keys of the source.
Duration is in whole seconds, as the source's int(time.time() - start_time). -/
structure Outcome where
  Contract_ID : String
  Status : String
  Duration : Nat
  File_Path : Option String
deriving Repr, DecidableEq

/-- The five UI-driven steps of the per-contract state machine, in the order
they are attempted by process_contract. -/
inductive Step where
  | SEARCH
  | OPEN
  | ACCESS_DOCUMENTS
  | DOWNLOAD
  | NAVIGATE_HOME
deriving Repr, DecidableEq

/-!
Gateway step functions, embedded from their sources.  Each takes an
environment describing the observable result of the underlying page
interactions.  Every one of them wraps its body in try/except and therefore
never raises; their results are the values process_contract consumes.
-/

/-- Environment for search_contract: whether the locate/fill/press sequence
on the search field completed without raising. -/
structure SearchEnv where
  interactionsOk : Bool
deriving Repr, DecidableEq

/-- search_contract (contracts.py 108-123): returns True when the whole
fill-and-press sequence completes; any raised exception is caught and False
is returned. -/
def search_contract (senv : SearchEnv) : Bool :=
  senv.interactionsOk

/-- Environment for open_contract, one field per observable page condition
in contracts.py 125-176. -/
structure OpenEnv where
  tableLoaded : Bool
  linkFound : Bool
  menuIdPresent : Bool
  clicksOk : Bool
  openOptionFound : Bool
  titleVisible : Bool
  docsOrOverviewVisible : Bool
deriving Repr, DecidableEq

/-- open_contract (contracts.py 125-176): "ERROR" when the result table never
loads or a click raises (outer except), "NOT_FOUND" when the row, its menu id
or the open option is missing, or when after opening neither the title nor
the Documentos / Visão Geral markers are visible; "OPENED" otherwise. -/
def open_contract (oenv : OpenEnv) : String :=
  if !oenv.tableLoaded then "ERROR"
  else if !oenv.linkFound then "NOT_FOUND"
  else if !oenv.menuIdPresent then "NOT_FOUND"
  else if !oenv.clicksOk then "ERROR"
  else if !oenv.openOptionFound then "NOT_FOUND"
  else if oenv.titleVisible then "OPENED"
  else if oenv.docsOrOverviewVisible then "OPENED"
  else "NOT_FOUND"

/-- Environment for access_contract_documents (documents.py 7-53): whether the
tab/menu interaction sequence reached the download page. -/
structure AccessEnv where
  reachedDocumentsPage : Bool
deriving Repr, DecidableEq

/-- access_contract_documents (documents.py 7-53): True when the documents
page is reached; every failure (missing tab, missing button, timeout,
raised exception) yields False. -/
def access_contract_documents (aenv : AccessEnv) : Bool :=
  aenv.reachedDocumentsPage

/-- Root under which per-contract download directories are created
(config/paths.py, EXTRACTED_CONTRACTS_DIR); path separators written as
forward slashes in this model. -/
def EXTRACTED_CONTRACTS_DIR : String :=
  "//pfs01/SistemasTI/.../Base POS GO LIVE"

/-- Environment for download_contract_documents, one field per observable
condition of documents.py 55-98. -/
structure DownloadEnv where
  pageReady : Bool
  checkboxOk : Bool
  downloadStarted : Bool
  suggestedFilename : String
  saveOk : Bool
  noDocsBanner : Bool
deriving Repr, DecidableEq

/-- download_contract_documents (documents.py 55-98): when the whole
try-block succeeds it returns ("DOWNLOADED", saved path); when anything in
the try-block raises (page not ready, checkbox fails, the download never
starts within the timeout, save_as raises) the except clause returns
("NO_FILES", none) whether or not the no-documents banner is present -- the
two branches of the except clause are textually identical in the source. -/
def download_contract_documents (contract_id : String) (denv : DownloadEnv) :
    String × Option String :=
  if denv.pageReady && denv.checkboxOk && denv.downloadStarted && denv.saveOk then
    ("DOWNLOADED", some (EXTRACTED_CONTRACTS_DIR ++ "/" ++ contract_id ++ "/" ++
      denv.suggestedFilename))
  else if denv.noDocsBanner then
    ("NO_FILES", none)
  else
    ("NO_FILES", none)

/-- Environment for navigate_to_homepage (contracts.py 95-106). -/
structure NavEnv where
  homepageReached : Bool
deriving Repr, DecidableEq

/-- navigate_to_homepage (contracts.py 95-106): True when goto and the
post-login selector wait succeed; any raised exception is caught and False
returned, so this function never raises. -/
def navigate_to_homepage (nenv : NavEnv) : Bool :=
  nenv.homepageReached

/-!
The per-contract state machine process_contract (contracts.py 178-227).

The step results are taken from a StepEnv.  To let the theorems quantify
over every behaviour of the gateway steps -- including the hypothetical case
of a step raising, which the step functions above can never do -- the four
results consumed inside the try block are Except-valued; an error value
means the call raised and control jumped to the except clause.
navigate_to_homepage runs inside the finally clause; its boolean result is
ignored by the source, and (being embedded from its source) it cannot raise.
Each step also has a wall-clock duration in seconds.
-/

/-- Step results and step durations observed by one process_contract call. -/
structure StepEnv where
  searchRes : Except PyExn Bool
  openRes : Except PyExn String
  accessRes : Except PyExn Bool
  downloadRes : Except PyExn (String × Option String)
  navRes : Bool
  searchTime : Nat
  openTime : Nat
  accessTime : Nat
  downloadTime : Nat
  navTime : Nat

/-- The try/except part of process_contract (contracts.py 186-216): returns
the final value of the status variable after the except clause has or has
not run, the final value of the file_path variable, the list of gateway
steps attempted inside the try block, and whether an exception reached the
except clause (which prefixes the status with ERROR_).  The early return of
the NOT_FOUND branch is superseded by the return inside the finally clause,
so here it only fixes status and stops the remaining steps. -/
def processTry (env : StepEnv) : String × Option String × List Step × Bool :=
  match env.searchRes with
  | Except.error _ => ("PROCESSED", none, [Step.SEARCH], true)
  | Except.ok searchOk =>
    if !searchOk then
      ("SEARCH_FAILED", none, [Step.SEARCH], true)
    else
      match env.openRes with
      | Except.error _ => ("PROCESSED", none, [Step.SEARCH, Step.OPEN], true)
      | Except.ok openStatus =>
        if openStatus = "NOT_FOUND" then
          ("NOT_FOUND", none, [Step.SEARCH, Step.OPEN], false)
        else if openStatus ≠ "OPENED" then
          ("OPEN_FAILED", none, [Step.SEARCH, Step.OPEN], true)
        else
          match env.accessRes with
          | Except.error _ =>
            ("PROCESSED", none, [Step.SEARCH, Step.OPEN, Step.ACCESS_DOCUMENTS], true)
          | Except.ok accessOk =>
            if !accessOk then
              ("DOCUMENTS_ACCESS_FAILED", none,
                [Step.SEARCH, Step.OPEN, Step.ACCESS_DOCUMENTS], true)
            else
              match env.downloadRes with
              | Except.error _ =>
                ("PROCESSED", none,
                  [Step.SEARCH, Step.OPEN, Step.ACCESS_DOCUMENTS, Step.DOWNLOAD], true)
              | Except.ok (downloadStatus, filePath) =>
                if downloadStatus = "NO_FILES" then
                  ("NO_FILES", filePath,
                    [Step.SEARCH, Step.OPEN, Step.ACCESS_DOCUMENTS, Step.DOWNLOAD], false)
                else if downloadStatus ≠ "DOWNLOADED" then
                  ("DOWNLOAD_FAILED", filePath,
                    [Step.SEARCH, Step.OPEN, Step.ACCESS_DOCUMENTS, Step.DOWNLOAD], true)
                else
                  ("PROCESSED", filePath,
                    [Step.SEARCH, Step.OPEN, Step.ACCESS_DOCUMENTS, Step.DOWNLOAD], false)

/-- Wall-clock seconds spent in one step, per the environment. -/
def stepTime (env : StepEnv) : Step → Nat
  | Step.SEARCH => env.searchTime
  | Step.OPEN => env.openTime
  | Step.ACCESS_DOCUMENTS => env.accessTime
  | Step.DOWNLOAD => env.downloadTime
  | Step.NAVIGATE_HOME => env.navTime

/-- process_contract (contracts.py 178-227).  Returns the report record built
by the return statement of the finally clause, together with the full
sequence of gateway steps the call attempted (its effect trace).  Python
semantics embedded here: a return inside a finally clause supersedes both
the early return of the NOT_FOUND branch and any in-flight exception, so
the function always returns this record and never propagates an exception;
the finally clause computes duration BEFORE calling navigate_to_homepage,
so Duration excludes the NAVIGATE_HOME time; navigate_to_homepage is always
attempted, on every branch, and its boolean result is discarded. -/
def process_contract (contract_id : String) (env : StepEnv) : Outcome × List Step :=
  match processTry env with
  | (st, fp, trySteps, raised) =>
    let status := if raised then "ERROR_" ++ st else st
    let duration := (trySteps.map (stepTime env)).sum
    ({ Contract_ID := contract_id, Status := status, Duration := duration,
       File_Path := fp },
     trySteps ++ [Step.NAVIGATE_HOME])

/-- Formalises the duration the spec sentence of C9 describes: wall-clock
time from the moment SEARCH is attempted (the function records start_time
immediately before the try block, whose first statement is the search) to
the moment the terminal outcome is about to be returned, inclusive of the
time spent in NAVIGATE_HOME: the sum of the times of every step attempted
during the call. -/
def claimed_duration (env : StepEnv) (contract_id : String) : Nat :=
  (((process_contract contract_id env).2).map (stepTime env)).sum

/-!
Resume tracker: get_last_contract_id (contracts.py 12-32).
The output root directory is modelled by a listing of entries, each carrying
the observations the source makes about it: its name, whether it is a
directory, whether it contains at least one entry (any(d.glob("*"))), and
its modification time in seconds.
-/

/-- One entry of the output root directory as observed by the source. -/
structure DirEntry where
  name : String
  isDir : Bool
  hasEntries : Bool
  mtime : Nat
deriving Repr, DecidableEq

/-- The state of the output root directory: whether it exists, whether any
of the inspection calls (iterdir, glob, getmtime) raises, and its entries. -/
structure OutputRoot where
  rootExists : Bool
  ioError : Bool
  entries : List DirEntry
deriving Repr, DecidableEq

/-- Python max over a non-empty list with a key function: keeps the current
maximum and replaces it only by a strictly greater key, so ties resolve to
the earliest element, as Python's builtin max does. -/
def pyMaxBy (key : DirEntry → Nat) : DirEntry → List DirEntry → DirEntry
  | best, [] => best
  | best, d :: rest =>
    if key best < key d then pyMaxBy key d rest else pyMaxBy key best rest

/-- get_last_contract_id (contracts.py 12-32): none when the root does not
exist, when inspection raises (the except clause), or when no entry is a
directory with at least one entry; otherwise the name of the
latest-modified such directory. -/
def get_last_contract_id (fs : OutputRoot) : Option String :=
  if !fs.rootExists then none
  else if fs.ioError then none
  else
    match fs.entries.filter (fun d => d.isDir && d.hasEntries) with
    | [] => none
    | f :: rest => some ((pyMaxBy (fun d => d.mtime) f rest).name)

/-!
Batch planner: get_contracts_to_process (contracts.py 34-60).
The spreadsheet-reading layer is modelled by InputFile; the core selection
logic works on the extracted Contract_ID column.
-/

/-- The condition of if not last_processed_id: Python string truthiness,
true for None and for the empty string. -/
def pyFalsy : Option String → Bool
  | none => true
  | some s => s == ""

/-- The core of get_contracts_to_process (contracts.py 52-57), over the
already-extracted identifier column: restart from the top when the marker
is falsy or absent, otherwise take the quantity entries after the first
occurrence of the marker (Python list.index finds the first occurrence). -/
def plan_from_ids (last_processed_id : Option String) (contract_ids : List String)
    (quantity : Nat) : List String :=
  if pyFalsy last_processed_id ||
      !(contract_ids.contains (last_processed_id.getD "")) then
    contract_ids.take quantity
  else
    let last_index := contract_ids.indexOf (last_processed_id.getD "")
    let next_index := last_index + 1
    (contract_ids.drop next_index).take quantity

/-- The spreadsheet as observed by get_contracts_to_process: whether the
file exists, whether read_excel raises, whether the Contract_ID column is
present, and that column's values as strings (astype(str)). -/
structure InputFile where
  fileExists : Bool
  readOk : Bool
  hasContractIdColumn : Bool
  column : List String
deriving Repr, DecidableEq

/-- get_contracts_to_process (contracts.py 34-60): empty when the file is
missing, reading raises, or the Contract_ID column is absent; otherwise the
slice computed by plan_from_ids. -/
def get_contracts_to_process (last_processed_id : Option String) (f : InputFile)
    (quantity : Nat) : List String :=
  if !f.fileExists then []
  else if !f.readOk then []
  else if !f.hasContractIdColumn then []
  else plan_from_ids last_processed_id f.column quantity

/-!
Batch runner (main.py 194-231), report persistence (main.py 237-241) and
summary (main.py 125-154).
-/

/-- The per-contract loop of main (main.py 194-231).  proc is the call to
process_contract for a given identifier, Except-valued because main wraps
the call in try/except; stop i is the value of controller.should_stop read
just before iteration i (0-based); dur i is the runner's own wall-clock
measurement round(time.time() - contract_start_time) for iteration i, which
is what the report row records (not the Duration computed inside
process_contract).  A raised exception yields a row with Status ERROR and
Duration 0 and the loop continues; a set stop flag ends the loop before the
next contract is attempted. -/
def batch_loop (proc : String → Except PyExn Outcome) (stop : Nat → Bool)
    (dur : Nat → Nat) : Nat → List String → List Outcome
  | _, [] => []
  | i, contract_id :: rest =>
    if stop i then []
    else
      match proc contract_id with
      | Except.ok result =>
        { Contract_ID := contract_id, Status := result.Status, Duration := dur i,
          File_Path := result.File_Path } :: batch_loop proc stop dur (i + 1) rest
      | Except.error _ =>
        { Contract_ID := contract_id, Status := "ERROR", Duration := 0,
          File_Path := none } :: batch_loop proc stop dur (i + 1) rest

/-- The finally clause of main (main.py 237-241): save_report is invoked
exactly when the accumulated report_data is non-empty. -/
def report_saved (report_data : List Outcome) : Bool :=
  !report_data.isEmpty

/-- The counters of generate_summary (main.py 125-154). -/
structure Summary where
  success_count : Nat
  no_files_count : Nat
  error_count : Nat
  total : Nat
deriving Repr, DecidableEq

/-- generate_summary (main.py 125-154): successes are the rows with Status
PROCESSED, the no-files tally the rows with Status NO_FILES, and the failure
count is everything else (total minus the two other tallies). -/
def generate_summary (report_data : List Outcome) : Summary :=
  let success_count := (report_data.filter (fun o => o.Status == "PROCESSED")).length
  let no_files_count := (report_data.filter (fun o => o.Status == "NO_FILES")).length
  { success_count := success_count
    no_files_count := no_files_count
    error_count := report_data.length - success_count - no_files_count
    total := report_data.length }

/-!
Closed sample inputs used by the counterexample and witness theorems.
-/

/-- The set of statuses process_contract can record. -/
def allowedStatuses : List String :=
  ["PROCESSED", "NOT_FOUND", "NO_FILES", "ERROR_PROCESSED", "ERROR_SEARCH_FAILED",
   "ERROR_OPEN_FAILED", "ERROR_DOCUMENTS_ACCESS_FAILED", "ERROR_DOWNLOAD_FAILED"]

/-- A run where the search step reports failure. -/
def envC1 : StepEnv :=
  ⟨Except.ok false, Except.ok "OPENED", Except.ok true,
   Except.ok ("DOWNLOADED", some "p.zip"), true, 1, 1, 1, 1, 5⟩

/-- A run where the open step reports NOT_FOUND. -/
def envC2 : StepEnv :=
  ⟨Except.ok true, Except.ok "NOT_FOUND", Except.ok true,
   Except.ok ("DOWNLOADED", some "p.zip"), true, 1, 1, 1, 1, 5⟩

/-- An identifier column that contains the empty string as a value. -/
def idsC3 : List String := ["A", "", "B", "C"]

/-- A download attempt that fails because the download never starts, with no
no-documents banner shown. -/
def denvC5 : DownloadEnv := ⟨true, true, false, "contrato.zip", true, false⟩

/-- A run whose download step returns what download_contract_documents
produces for denvC5. -/
def envC5 : StepEnv :=
  ⟨Except.ok true, Except.ok "OPENED", Except.ok true,
   Except.ok (download_contract_documents "CT5" denvC5), true, 1, 1, 1, 1, 5⟩

/-- A download attempt where saving raised and the no-documents banner is
shown. -/
def denvC6 : DownloadEnv := ⟨true, true, true, "x.zip", false, true⟩

/-- A run whose download step returns what download_contract_documents
produces for denvC6. -/
def envC6 : StepEnv :=
  ⟨Except.ok true, Except.ok "OPENED", Except.ok true,
   Except.ok (download_contract_documents "CT6" denvC6), true, 1, 1, 1, 1, 2⟩

/-- A fully successful run with nonzero step times. -/
def envC9 : StepEnv :=
  ⟨Except.ok true, Except.ok "OPENED", Except.ok true,
   Except.ok ("DOWNLOADED", some "p.zip"), true, 1, 1, 1, 1, 5⟩

/-- A run where the search call itself raises. -/
def envC10 : StepEnv :=
  ⟨Except.error (PyExn.exn "net"), Except.ok "OPENED", Except.ok true,
   Except.ok ("DOWNLOADED", some "p.zip"), true, 1, 1, 1, 1, 1⟩

/-- A processor that always succeeds, for the batch witnesses. -/
def procW4 : String → Except PyExn Outcome :=
  fun c => Except.ok ⟨c, "PROCESSED", 3, none⟩

/-- The stop flag read as set from iteration 1 on. -/
def stopW4 : Nat → Bool := fun i => decide (1 ≤ i)

/-- A stop flag that is never set. -/
def stopNever : Nat → Bool := fun _ => false

/-- A processor that raises on the identifier BAD and succeeds elsewhere. -/
def procW7 : String → Except PyExn Outcome :=
  fun c => if c == "BAD" then Except.error (PyExn.exn "boom")
           else Except.ok ⟨c, "PROCESSED", 3, none⟩

/-- The plan used by the C7 witness. -/
def planW7 : List String := ["OK1", "BAD", "OK2"]

/-- An output root with two non-empty contract directories, one empty
directory and the latest modification on C2. -/
def fsW8 : OutputRoot :=
  ⟨true, false, [⟨"C10", true, true, 10⟩, ⟨"C2", true, true, 30⟩, ⟨"Cz", true, false, 99⟩]⟩

/-- The report row that the batch loop records for envC10 in the C10
witness. -/
def rowC10 : Outcome := ⟨"CTA", "ERROR_PROCESSED", 0, none⟩

/-!
Helper lemmas.
-/

/-- The effect trace of process_contract is the try-block trace followed by
the mandatory NAVIGATE_HOME of the finally clause. -/
lemma process_trace_eq (contract_id : String) (env : StepEnv) :
    (process_contract contract_id env).2 =
      (processTry env).2.2.1 ++ [Step.NAVIGATE_HOME] := by
  rcases h : processTry env with ⟨st, fp, steps, raised⟩
  simp [process_contract, h]

/-- NAVIGATE_HOME is the final attempted step of every process_contract
call. -/
lemma process_trace_last (contract_id : String) (env : StepEnv) :
    (process_contract contract_id env).2.getLast? = some Step.NAVIGATE_HOME := by
  rw [process_trace_eq, List.getLast?_concat]

/-- The status variable and the raised flag at the end of the try block form
one of eight pairs. -/
lemma processTry_cases (env : StepEnv) :
    ((processTry env).1, (processTry env).2.2.2) ∈
      [("PROCESSED", false), ("PROCESSED", true), ("SEARCH_FAILED", true),
       ("NOT_FOUND", false), ("OPEN_FAILED", true),
       ("DOCUMENTS_ACCESS_FAILED", true), ("NO_FILES", false),
       ("DOWNLOAD_FAILED", true)] := by
  unfold processTry
  rcases env with ⟨sr, orr, ar, dr, nv, t1, t2, t3, t4, t5⟩
  dsimp only
  rcases sr with e | sb
  · simp
  · rcases sb
    · simp
    · rcases orr with e | os
      · simp
      · dsimp only
        by_cases h1 : os = "NOT_FOUND"
        · simp [h1]
        · rw [if_neg h1]
          by_cases h2 : os = "OPENED"
          · rw [if_neg (not_not_intro h2)]
            rcases ar with e | ab
            · simp
            · rcases ab
              · simp
              · rcases dr with e | ⟨ds, fp⟩
                · simp
                · dsimp only
                  by_cases h3 : ds = "NO_FILES"
                  · simp [h3]
                  · rw [if_neg h3]
                    by_cases h4 : ds = "DOWNLOADED"
                    · rw [if_neg (not_not_intro h4)]
                      simp
                    · rw [if_pos h4]
                      simp
          · rw [if_pos h2]
            simp

/-- Every status process_contract records is in allowedStatuses. -/
lemma process_status_mem (contract_id : String) (env : StepEnv) :
    (process_contract contract_id env).1.Status ∈ allowedStatuses := by
  have h := processTry_cases env
  rcases hp : processTry env with ⟨st, fp, steps, raised⟩
  rw [hp] at h
  simp only [List.mem_cons, List.not_mem_nil, or_false, Prod.mk.injEq] at h
  rcases h with ⟨h1, h2⟩ | ⟨h1, h2⟩ | ⟨h1, h2⟩ | ⟨h1, h2⟩ | ⟨h1, h2⟩ | ⟨h1, h2⟩ |
    ⟨h1, h2⟩ | ⟨h1, h2⟩ <;>
    subst h1 <;> subst h2 <;> simp only [process_contract, hp] <;> decide

/-- Rows split exactly into the PROCESSED rows, the NO_FILES rows and the
remaining rows. -/
lemma length_partition (rows : List Outcome) :
    rows.length = (rows.filter (fun o => o.Status == "PROCESSED")).length
      + (rows.filter (fun o => o.Status == "NO_FILES")).length
      + (rows.filter (fun o =>
          !(o.Status == "PROCESSED") && !(o.Status == "NO_FILES"))).length := by
  induction rows with
  | nil => rfl
  | cons o rest ih =>
    simp only [List.filter_cons, List.length_cons]
    by_cases h1 : o.Status = "PROCESSED" <;> by_cases h2 : o.Status = "NO_FILES" <;>
      simp [h1, h2] <;> omega

/-- Python max with a key returns an element of the scanned list. -/
lemma pyMaxBy_mem (key : DirEntry → Nat) :
    ∀ (l : List DirEntry) (b : DirEntry), pyMaxBy key b l ∈ b :: l := by
  intro l
  induction l with
  | nil => intro b; simp [pyMaxBy]
  | cons d rest ih =>
    intro b
    unfold pyMaxBy
    by_cases h : key b < key d
    · simp only [h, if_true]
      have := ih d
      simp only [List.mem_cons] at this ⊢
      tauto
    · simp only [h, if_false]
      have := ih b
      simp only [List.mem_cons] at this ⊢
      tauto

/-- Python max with a key dominates every element of the scanned list. -/
lemma pyMaxBy_ge (key : DirEntry → Nat) :
    ∀ (l : List DirEntry) (b x : DirEntry), x ∈ b :: l →
      key x ≤ key (pyMaxBy key b l) := by
  intro l
  induction l with
  | nil =>
    intro b x hx
    simp only [List.mem_singleton] at hx
    subst hx
    simp [pyMaxBy]
  | cons d rest ih =>
    intro b x hx
    unfold pyMaxBy
    rcases List.mem_cons.mp hx with hxb | hxd
    · subst hxb
      by_cases h : key x < key d
      · simp only [h, if_true]
        have hd := ih d d (List.mem_cons_self d rest)
        omega
      · simp only [h, if_false]
        exact ih x x (List.mem_cons_self x rest)
    · rcases List.mem_cons.mp hxd with hxd2 | hxrest
      · subst hxd2
        by_cases h : key b < key x
        · simp only [h, if_true]
          exact ih x x (List.mem_cons_self x rest)
        · simp only [h, if_false]
          have hb := ih b b (List.mem_cons_self b rest)
          omega
      · by_cases h : key b < key d
        · simp only [h, if_true]
          exact ih d x (List.mem_cons_of_mem d hxrest)
        · simp only [h, if_false]
          exact ih b x (List.mem_cons_of_mem b hxrest)

/-- When the stop flag first reads true at offset k, the batch loop started
at index i yields exactly the rows of the first k planned identifiers. -/
lemma batch_loop_stop_exact (proc : String → Except PyExn Outcome)
    (stop : Nat → Bool) (dur : Nat → Nat) :
    ∀ (plan : List String) (i k : Nat),
      (∀ j, j < k → stop (i + j) = false) → stop (i + k) = true →
      k ≤ plan.length →
      (batch_loop proc stop dur i plan).length = k ∧
      (batch_loop proc stop dur i plan).map (fun o => o.Contract_ID) =
        plan.take k := by
  intro plan
  induction plan with
  | nil =>
    intro i k h1 h2 hk
    simp only [List.length_nil, Nat.le_zero] at hk
    subst hk
    simp [batch_loop]
  | cons c rest ih =>
    intro i k h1 h2 hk
    cases k with
    | zero =>
      have hs : stop i = true := by simpa using h2
      simp [batch_loop, hs]
    | succ k2 =>
      have h0 : stop i = false := by
        have := h1 0 (Nat.succ_pos k2)
        simpa using this
      have hrec := ih (i + 1) k2
        (fun j hj => by
          have heq : i + 1 + j = i + (j + 1) := by omega
          rw [heq]
          exact h1 (j + 1) (by omega))
        (by
          have heq : i + 1 + k2 = i + (k2 + 1) := by omega
          rw [heq]
          exact h2)
        (by simpa using hk)
      cases hpc : proc c <;>
        simp [batch_loop, h0, hpc, hrec.1, hrec.2]

/-- With the stop flag never set, the batch loop records one row per planned
identifier and a raising processor yields the ERROR row with zero duration
at that identifier's position. -/
lemma batch_loop_no_stop (proc : String → Except PyExn Outcome)
    (stop : Nat → Bool) (dur : Nat → Nat) (hstop : ∀ i, stop i = false) :
    ∀ (plan : List String) (i : Nat),
      (batch_loop proc stop dur i plan).length = plan.length ∧
      ∀ (n : Nat) (hn : n < plan.length) (e : PyExn),
        proc (plan.get ⟨n, hn⟩) = Except.error e →
        (batch_loop proc stop dur i plan).get? n =
          some { Contract_ID := plan.get ⟨n, hn⟩, Status := "ERROR",
                 Duration := 0, File_Path := none } := by
  intro plan
  induction plan with
  | nil =>
    intro i
    refine ⟨rfl, ?_⟩
    intro n hn
    exact absurd hn (by simp)
  | cons c rest ih =>
    intro i
    have h0 : stop i = false := hstop i
    obtain ⟨ihlen, iherr⟩ := ih (i + 1)
    constructor
    · cases hpc : proc c <;> simp [batch_loop, h0, hpc, ihlen]
    · intro n hn e hpe
      cases n with
      | zero =>
        have hc : (c :: rest).get ⟨0, hn⟩ = c := rfl
        rw [hc] at hpe
        simp [batch_loop, h0, hpe]
      | succ m =>
        have hm : m < rest.length := by simpa using hn
        have hc : (c :: rest).get ⟨m + 1, hn⟩ = rest.get ⟨m, hm⟩ := rfl
        rw [hc] at hpe ⊢
        cases hpc : proc c <;>
          simpa [batch_loop, h0, hpc] using iherr m hm e hpe

/-- Every row the batch loop records from an always-returning processor
carries the Status that processor returned for some planned identifier. -/
lemma batch_loop_ok_status (procF : String → Outcome) (stop : Nat → Bool)
    (dur : Nat → Nat) :
    ∀ (plan : List String) (i : Nat) (o : Outcome),
      o ∈ batch_loop (fun c => Except.ok (procF c)) stop dur i plan →
      ∃ c, c ∈ plan ∧ o.Status = (procF c).Status := by
  intro plan
  induction plan with
  | nil => intro i o ho; simp [batch_loop] at ho
  | cons c rest ih =>
    intro i o ho
    by_cases hs : stop i
    · simp [batch_loop, hs] at ho
    · simp only [batch_loop, hs, if_false, Bool.false_eq_true] at ho
      rcases List.mem_cons.mp ho with hhead | htail
      · subst hhead
        exact ⟨c, List.mem_cons_self c rest, rfl⟩
      · obtain ⟨c2, hc2, hst⟩ := ih (i + 1) o htail
        exact ⟨c2, List.mem_cons_of_mem c hc2, hst⟩

/-!
Claim theorems.
-/

/-- C1 counterexample: in a run whose search step reports failure, the
recorded status is not SEARCH_FAILED -- the raise that aborts the remaining
steps is caught by the function's own except clause, which prefixes the
status with ERROR_. -/
theorem C1_counterexample :
    envC1.searchRes = Except.ok false ∧
    (process_contract "CT1" envC1).1.Status ≠ "SEARCH_FAILED" ∧
    (process_contract "CT1" envC1).1.Status = "ERROR_SEARCH_FAILED" :=
  ⟨rfl, by decide, by decide⟩

/-- C1 (amended): for every contract whose search step fails, the outcome
status is exactly ERROR_SEARCH_FAILED and the file path is none. -/
theorem C1_search_failed_outcome (contract_id : String) (env : StepEnv)
    (h : env.searchRes = Except.ok false) :
    (process_contract contract_id env).1.Status = "ERROR_SEARCH_FAILED" ∧
    (process_contract contract_id env).1.File_Path = none := by
  simp [process_contract, processTry, h]

/-- C1 witness: the amended statement instantiated on envC1. -/
theorem C1_witness :
    envC1.searchRes = Except.ok false ∧
    ((process_contract "CT1W" envC1).1.Status = "ERROR_SEARCH_FAILED" ∧
     (process_contract "CT1W" envC1).1.File_Path = none) :=
  ⟨rfl, C1_search_failed_outcome "CT1W" envC1 rfl⟩

/-- C2 counterexample: in a run whose open step reports NOT_FOUND, the
terminal status is NOT_FOUND and NAVIGATE_HOME IS attempted -- the return
inside the finally clause supersedes the early return of the NOT_FOUND
branch, and the finally clause calls navigate_to_homepage first. -/
theorem C2_counterexample :
    envC2.openRes = Except.ok "NOT_FOUND" ∧
    (process_contract "CT2" envC2).1.Status = "NOT_FOUND" ∧
    Step.NAVIGATE_HOME ∈ (process_contract "CT2" envC2).2 :=
  ⟨rfl, by decide, by decide⟩

/-- C2 (amended): NAVIGATE_HOME is attempted after every terminal branch,
including NOT_FOUND, and it is always the final attempted step. -/
theorem C2_navigate_home_always (contract_id : String) (env : StepEnv) :
    Step.NAVIGATE_HOME ∈ (process_contract contract_id env).2 ∧
    (process_contract contract_id env).2.getLast? = some Step.NAVIGATE_HOME := by
  refine ⟨?_, process_trace_last contract_id env⟩
  rw [process_trace_eq]
  simp

/-- C3 counterexample: with the identifier list [A, "", B, C], the marker
some "" and quantity 2, the marker is neither none nor absent from the
list, yet the code restarts from the top (Python's truthiness test treats
the empty string like None) instead of returning the entries after the
marker's index. -/
theorem C3_counterexample :
    "" ∈ idsC3 ∧
    (some "" : Option String) ≠ none ∧
    plan_from_ids (some "") idsC3 2 = ["A", ""] ∧
    plan_from_ids (some "") idsC3 2 ≠ (idsC3.drop (idsC3.indexOf "" + 1)).take 2 := by
  decide

/-- C3 (amended): when the marker is none, EMPTY, or absent from the list
the plan is the first quantity identifiers; when the marker is a non-empty
present identifier the plan is the quantity entries immediately after its
first index, and its length is min quantity (remaining after the marker). -/
theorem C3_plan_slices (contract_ids : List String) (last : Option String)
    (quantity : Nat) (_hq : 0 < quantity) :
    (pyFalsy last = true →
      plan_from_ids last contract_ids quantity = contract_ids.take quantity) ∧
    (∀ s, last = some s → s ∉ contract_ids →
      plan_from_ids last contract_ids quantity = contract_ids.take quantity) ∧
    (∀ s, last = some s → s ≠ "" → s ∈ contract_ids →
      plan_from_ids last contract_ids quantity =
        (contract_ids.drop (contract_ids.indexOf s + 1)).take quantity ∧
      (plan_from_ids last contract_ids quantity).length =
        min quantity (contract_ids.length - (contract_ids.indexOf s + 1))) := by
  refine ⟨?_, ?_, ?_⟩
  · intro h
    simp [plan_from_ids, h]
  · intro s hs hmem
    subst hs
    simp [plan_from_ids, hmem]
  · intro s hs hne hmem
    subst hs
    have hfal : pyFalsy (some s) = false := by
      simp [pyFalsy, hne]
    constructor
    · simp [plan_from_ids, hfal, hmem]
    · simp [plan_from_ids, hfal, hmem, List.length_take, List.length_drop]

/-- C3 witness: the amended statement on the spec's own example, with the
example equality plan [A,B,C,D,E], last C, quantity 2 gives [D,E]. -/
theorem C3_witness :
    0 < 2 ∧
    plan_from_ids (some "C") ["A", "B", "C", "D", "E"] 2 = ["D", "E"] ∧
    ((pyFalsy (some "C") = true →
      plan_from_ids (some "C") ["A", "B", "C", "D", "E"] 2 =
        (["A", "B", "C", "D", "E"] : List String).take 2) ∧
    (∀ s, (some "C" : Option String) = some s → s ∉ (["A", "B", "C", "D", "E"] : List String) →
      plan_from_ids (some "C") ["A", "B", "C", "D", "E"] 2 =
        (["A", "B", "C", "D", "E"] : List String).take 2) ∧
    (∀ s, (some "C" : Option String) = some s → s ≠ "" →
      s ∈ (["A", "B", "C", "D", "E"] : List String) →
      plan_from_ids (some "C") ["A", "B", "C", "D", "E"] 2 =
        ((["A", "B", "C", "D", "E"] : List String).drop
          ((["A", "B", "C", "D", "E"] : List String).indexOf s + 1)).take 2 ∧
      (plan_from_ids (some "C") ["A", "B", "C", "D", "E"] 2).length =
        min 2 ((["A", "B", "C", "D", "E"] : List String).length -
          ((["A", "B", "C", "D", "E"] : List String).indexOf s + 1)))) :=
  ⟨by decide, by decide,
   C3_plan_slices ["A", "B", "C", "D", "E"] (some "C") 2 (by decide)⟩

/-- C4: when the stop flag first reads true before iteration k (it became
set while the k-th contract, 1-based, was being processed) and k is less
than the plan length, the batch loop records exactly k rows, one per each
of the first k planned identifiers, and the finally clause still invokes
save_report because the accumulated report is non-empty. -/
theorem C4_stop_partial (proc : String → Except PyExn Outcome)
    (stop : Nat → Bool) (dur : Nat → Nat) (plan : List String) (k : Nat)
    (hk1 : 1 ≤ k) (hkN : k < plan.length)
    (hbefore : ∀ j, j < k → stop j = false) (hat : stop k = true) :
    (batch_loop proc stop dur 0 plan).length = k ∧
    (batch_loop proc stop dur 0 plan).map (fun o => o.Contract_ID) =
      plan.take k ∧
    report_saved (batch_loop proc stop dur 0 plan) = true := by
  obtain ⟨hlen, hmap⟩ := batch_loop_stop_exact proc stop dur plan 0 k
    (fun j hj => by simpa using hbefore j hj) (by simpa using hat)
    (le_of_lt hkN)
  refine ⟨hlen, hmap, ?_⟩
  unfold report_saved
  cases hrows : batch_loop proc stop dur 0 plan with
  | nil => rw [hrows] at hlen; simp at hlen; omega
  | cons a b => simp

/-- C4 witness: a three-contract plan stopped after the first contract. -/
theorem C4_witness :
    1 ≤ 1 ∧ 1 < (["A", "B", "C"] : List String).length ∧
    (∀ j, j < 1 → stopW4 j = false) ∧ stopW4 1 = true ∧
    ((batch_loop procW4 stopW4 (fun _ => 0) 0 ["A", "B", "C"]).length = 1 ∧
     (batch_loop procW4 stopW4 (fun _ => 0) 0 ["A", "B", "C"]).map
       (fun o => o.Contract_ID) = (["A", "B", "C"] : List String).take 1 ∧
     report_saved (batch_loop procW4 stopW4 (fun _ => 0) 0 ["A", "B", "C"]) = true) :=
  ⟨by decide, by decide, by decide, by decide,
   C4_stop_partial procW4 stopW4 (fun _ => 0) ["A", "B", "C"] 1
     (by decide) (by decide) (by decide) (by decide)⟩

/-- C5 counterexample: document access succeeded and the download failed
because the transfer never started (no no-documents banner either), yet the
recorded status is NO_FILES, not DOWNLOAD_FAILED: download_contract_documents
maps every failure of its try block to NO_FILES. -/
theorem C5_counterexample :
    denvC5.downloadStarted = false ∧
    denvC5.noDocsBanner = false ∧
    envC5.accessRes = Except.ok true ∧
    envC5.downloadRes = Except.ok (download_contract_documents "CT5" denvC5) ∧
    (process_contract "CT5" envC5).1.Status ≠ "DOWNLOAD_FAILED" ∧
    (process_contract "CT5" envC5).1.Status = "NO_FILES" :=
  ⟨rfl, rfl, rfl, rfl, by decide, by decide⟩

/-- C5 (amended): when document access succeeded and the download attempt
fails for any reason (transfer never starts, saving raises, page or
checkbox problems), the recorded status is NO_FILES with file path none --
never DOWNLOAD_FAILED, which is unreachable for any value
download_contract_documents can return -- and NAVIGATE_HOME is still the
final attempted step. -/
theorem C5_download_failure (contract_id : String) (denv : DownloadEnv)
    (env : StepEnv)
    (hs : env.searchRes = Except.ok true)
    (ho : env.openRes = Except.ok "OPENED")
    (ha : env.accessRes = Except.ok true)
    (hd : env.downloadRes = Except.ok (download_contract_documents contract_id denv))
    (hfail : (denv.pageReady && denv.checkboxOk && denv.downloadStarted &&
      denv.saveOk) = false) :
    (process_contract contract_id env).1.Status = "NO_FILES" ∧
    (process_contract contract_id env).1.File_Path = none ∧
    (process_contract contract_id env).1.Status ≠ "DOWNLOAD_FAILED" ∧
    (process_contract contract_id env).2.getLast? = some Step.NAVIGATE_HOME := by
  have hdl : download_contract_documents contract_id denv = ("NO_FILES", none) := by
    unfold download_contract_documents
    rw [hfail]
    simp
  rw [hdl] at hd
  refine ⟨?_, ?_, ?_, process_trace_last contract_id env⟩ <;>
    simp [process_contract, processTry, hs, ho, ha, hd]

/-- C5 witness: the amended statement instantiated on denvC5 and envC5. -/
theorem C5_witness :
    envC5.searchRes = Except.ok true ∧
    envC5.downloadRes = Except.ok (download_contract_documents "CT5" denvC5) ∧
    (denvC5.pageReady && denvC5.checkboxOk && denvC5.downloadStarted &&
      denvC5.saveOk) = false ∧
    ((process_contract "CT5" envC5).1.Status = "NO_FILES" ∧
     (process_contract "CT5" envC5).1.File_Path = none ∧
     (process_contract "CT5" envC5).1.Status ≠ "DOWNLOAD_FAILED" ∧
     (process_contract "CT5" envC5).2.getLast? = some Step.NAVIGATE_HOME) :=
  ⟨rfl, rfl, by decide,
   C5_download_failure "CT5" denvC5 envC5 rfl rfl rfl rfl (by decide)⟩

/-- C6: when download_contract_documents reports no files, the outcome
status is NO_FILES with file path none, and generate_summary tallies such
rows separately: its failure count is exactly the number of rows whose
status is neither PROCESSED nor NO_FILES. -/
theorem C6_no_files_outcome (contract_id : String) (denv : DownloadEnv)
    (env : StepEnv)
    (hs : env.searchRes = Except.ok true)
    (ho : env.openRes = Except.ok "OPENED")
    (ha : env.accessRes = Except.ok true)
    (hd : env.downloadRes = Except.ok (download_contract_documents contract_id denv))
    (hnf : (download_contract_documents contract_id denv).1 = "NO_FILES") :
    (process_contract contract_id env).1.Status = "NO_FILES" ∧
    (process_contract contract_id env).1.File_Path = none ∧
    ∀ rows : List Outcome, (generate_summary rows).error_count =
      (rows.filter (fun o =>
        !(o.Status == "PROCESSED") && !(o.Status == "NO_FILES"))).length := by
  have hdl : download_contract_documents contract_id denv = ("NO_FILES", none) := by
    cases hb : (denv.pageReady && denv.checkboxOk && denv.downloadStarted &&
        denv.saveOk) with
    | false => simp [download_contract_documents, hb]
    | true => simp [download_contract_documents, hb] at hnf
  rw [hdl] at hd
  refine ⟨?_, ?_, ?_⟩
  · simp [process_contract, processTry, hs, ho, ha, hd]
  · simp [process_contract, processTry, hs, ho, ha, hd]
  · intro rows
    have hpart := length_partition rows
    simp only [generate_summary]
    omega

/-- C6 witness: the statement instantiated on denvC6 and envC6, together
with a sample report in which the NO_FILES row is not counted as a
failure. -/
theorem C6_witness :
    envC6.downloadRes = Except.ok (download_contract_documents "CT6" denvC6) ∧
    (download_contract_documents "CT6" denvC6).1 = "NO_FILES" ∧
    ((process_contract "CT6" envC6).1.Status = "NO_FILES" ∧
     (process_contract "CT6" envC6).1.File_Path = none ∧
     ∀ rows : List Outcome, (generate_summary rows).error_count =
       (rows.filter (fun o =>
         !(o.Status == "PROCESSED") && !(o.Status == "NO_FILES"))).length) :=
  ⟨rfl, by decide, C6_no_files_outcome "CT6" denvC6 envC6 rfl rfl rfl rfl (by decide)⟩

/-- C7: with the stop flag never set, the batch loop records one row per
planned identifier, and whenever the processor raises on the identifier at
position n the recorded row at position n has status ERROR, duration
exactly zero and no file path -- the loop then continues, so the total row
count still equals the plan length. -/
theorem C7_error_isolated (proc : String → Except PyExn Outcome)
    (stop : Nat → Bool) (dur : Nat → Nat) (plan : List String)
    (hstop : ∀ i, stop i = false) :
    (batch_loop proc stop dur 0 plan).length = plan.length ∧
    ∀ (n : Nat) (hn : n < plan.length) (e : PyExn),
      proc (plan.get ⟨n, hn⟩) = Except.error e →
      (batch_loop proc stop dur 0 plan).get? n =
        some { Contract_ID := plan.get ⟨n, hn⟩, Status := "ERROR",
               Duration := 0, File_Path := none } :=
  batch_loop_no_stop proc stop dur hstop plan 0

/-- C7 witness: a plan whose middle identifier raises; the loop still
produces three rows and records the ERROR row with zero duration for it. -/
theorem C7_witness :
    (∀ i, stopNever i = false) ∧
    procW7 "BAD" = Except.error (PyExn.exn "boom") ∧
    ((batch_loop procW7 stopNever (fun i => 7 + i) 0 planW7).length =
      planW7.length ∧
     (batch_loop procW7 stopNever (fun i => 7 + i) 0 planW7).get? 1 =
       some { Contract_ID := "BAD", Status := "ERROR", Duration := 0,
              File_Path := none }) :=
  ⟨fun _ => rfl, rfl,
   (C7_error_isolated procW7 stopNever (fun i => 7 + i) planW7
      (fun _ => rfl)).1,
   (C7_error_isolated procW7 stopNever (fun i => 7 + i) planW7
      (fun _ => rfl)).2 1 (by decide) (PyExn.exn "boom") rfl⟩

/-- C8: get_last_contract_id returns none when the output root does not
exist, when inspection raises, or when no entry is a directory containing
at least one entry; otherwise it returns the name of a latest-modified
directory among the non-empty directories. -/
theorem C8_resume_tracker (fs : OutputRoot) :
    (fs.rootExists = false → get_last_contract_id fs = none) ∧
    (fs.ioError = true → get_last_contract_id fs = none) ∧
    (fs.entries.filter (fun d => d.isDir && d.hasEntries) = [] →
      get_last_contract_id fs = none) ∧
    (∀ f rest, fs.rootExists = true → fs.ioError = false →
      fs.entries.filter (fun d => d.isDir && d.hasEntries) = f :: rest →
      ∃ d, d ∈ f :: rest ∧ get_last_contract_id fs = some d.name ∧
        ∀ d2 ∈ f :: rest, d2.mtime ≤ d.mtime) := by
  refine ⟨?_, ?_, ?_, ?_⟩
  · intro h
    simp [get_last_contract_id, h]
  · intro h
    simp [get_last_contract_id, h]
  · intro h
    unfold get_last_contract_id
    rw [h]
    cases fs.rootExists <;> cases fs.ioError <;> simp
  · intro f rest hroot hio hfil
    refine ⟨pyMaxBy (fun d => d.mtime) f rest, pyMaxBy_mem _ rest f, ?_, ?_⟩
    · simp [get_last_contract_id, hroot, hio, hfil]
    · intro d2 hd2
      exact pyMaxBy_ge (fun d => d.mtime) rest f d2 hd2

/-- C8 witness: an existing root with two non-empty directories and one
empty one; the latest-modified non-empty directory is C2. -/
theorem C8_witness :
    fsW8.rootExists = true ∧ fsW8.ioError = false ∧
    fsW8.entries.filter (fun d => d.isDir && d.hasEntries) =
      ⟨"C10", true, true, 10⟩ :: [⟨"C2", true, true, 30⟩] ∧
    (∃ d, d ∈ (⟨"C10", true, true, 10⟩ : DirEntry) :: [⟨"C2", true, true, 30⟩] ∧
      get_last_contract_id fsW8 = some d.name ∧
      ∀ d2 ∈ (⟨"C10", true, true, 10⟩ : DirEntry) :: [⟨"C2", true, true, 30⟩],
        d2.mtime ≤ d.mtime) :=
  ⟨rfl, rfl, by decide,
   (C8_resume_tracker fsW8).2.2.2 ⟨"C10", true, true, 10⟩
     [⟨"C2", true, true, 30⟩] rfl rfl (by decide)⟩

/-- C9 counterexample: in a fully successful run whose NAVIGATE_HOME takes
5 seconds, the recorded Duration is 4 (the four try-block steps) while the
wall-clock span up to the moment the outcome is returned is 9 -- the
finally clause computes duration before calling navigate_to_homepage, so
the recorded Duration is not inclusive of NAVIGATE_HOME. -/
theorem C9_counterexample :
    envC9.navTime = 5 ∧
    (process_contract "CT9" envC9).1.Duration = 4 ∧
    claimed_duration envC9 "CT9" = 9 ∧
    (process_contract "CT9" envC9).1.Duration ≠ claimed_duration envC9 "CT9" := by
  decide

/-- C9 (amended): the recorded Duration is measured wall-clock from the
moment SEARCH is attempted up to just before NAVIGATE_HOME begins,
exclusive of the time spent in NAVIGATE_HOME: adding the NAVIGATE_HOME time
to it gives exactly the span to the moment the terminal outcome is about to
be returned. -/
theorem C9_duration_excludes_navigate (contract_id : String) (env : StepEnv) :
    (process_contract contract_id env).1.Duration + env.navTime =
      claimed_duration env contract_id := by
  unfold claimed_duration
  rcases h : processTry env with ⟨st, fp, steps, raised⟩
  simp [process_contract, h, stepTime]

/-- C10: process_contract is total at its interface: for every behaviour of
the gateway steps, including any of the four try-block steps raising, it
returns a record carrying the requested identifier whose status is
non-empty and drawn from the eight reachable statuses; a raised fault
yields ERROR_ prefixed onto the last assigned partial status; and a batch
loop driven by process_contract never records the runner-level ERROR
status, so that zero-duration branch is unreachable from faults inside
process_contract itself. -/
theorem C10_processor_total (contract_id : String) (env : StepEnv) :
    (process_contract contract_id env).1.Contract_ID = contract_id ∧
    (process_contract contract_id env).1.Status ≠ "" ∧
    (process_contract contract_id env).1.Status ∈ allowedStatuses ∧
    ((processTry env).2.2.2 = true →
      (process_contract contract_id env).1.Status = "ERROR_" ++ (processTry env).1) ∧
    ∀ (envOf : String → StepEnv) (stop : Nat → Bool) (dur : Nat → Nat)
      (plan : List String) (o : Outcome),
      o ∈ batch_loop (fun c => Except.ok (process_contract c (envOf c)).1)
        stop dur 0 plan →
      o.Status ≠ "ERROR" := by
  have hmem := process_status_mem contract_id env
  refine ⟨?_, ?_, hmem, ?_, ?_⟩
  · rcases h : processTry env with ⟨st, fp, steps, raised⟩
    simp [process_contract, h]
  · intro hempty
    rw [hempty] at hmem
    simp [allowedStatuses] at hmem
  · intro hraised
    rcases h : processTry env with ⟨st, fp, steps, raised⟩
    rw [h] at hraised
    simp only at hraised
    subst hraised
    simp [process_contract, h]
  · intro envOf stop dur plan o ho
    obtain ⟨c, _, hst⟩ := batch_loop_ok_status
      (fun c => (process_contract c (envOf c)).1) stop dur plan 0 o ho
    rw [hst]
    have hall := process_status_mem c (envOf c)
    intro hc
    rw [hc] at hall
    simp [allowedStatuses] at hall

/-- C10 witness: a run whose search call raises gives status
ERROR_PROCESSED (the partial status was still PROCESSED), and the row the
batch loop records for it is that status, not the runner-level ERROR. -/
theorem C10_witness :
    (processTry envC10).2.2.2 = true ∧
    ((process_contract "CTA" envC10).1.Status =
      "ERROR_" ++ (processTry envC10).1) ∧
    rowC10 ∈ batch_loop (fun c => Except.ok (process_contract c ((fun _ => envC10) c)).1)
      stopNever (fun _ => 0) 0 ["CTA"] ∧
    rowC10.Status ≠ "ERROR" :=
  ⟨rfl, (C10_processor_total "CTA" envC10).2.2.2.1 rfl, by decide,
   (C10_processor_total "CTA" envC10).2.2.2.2 (fun _ => envC10) stopNever
     (fun _ => 0) ["CTA"] rowC10 (by decide)⟩

end RPABot
